import Mathlib

/-!
# Susu's Kitchen — verification of the orchestration and state-sync core

Shallow embedding of the recipe-management application's core logic
(`src/App.tsx` and the generation service module).  View markup, media
capture and the remote generative calls themselves are not modelled;
every Gateway call outcome enters the model as an explicit parameter
(`Except`/`Option`), matching the position of the corresponding
`await` in the source.  JavaScript numbers used for money and serving
multipliers are modelled as rationals; timestamps (`Date.now()`) and
random id nonces are explicit parameters.
-/

/-- `'Easy' | 'Medium' | 'Hard'` from `types.ts`. -/
inductive Difficulty where
| easy
| medium
| hard
deriving Repr, DecidableEq

/-- `ViewState` from `types.ts`. -/
inductive ViewState where
| HOME
| RECIPE_DETAIL
| CREATE_RECIPE
| SHOPPING_LIST
| COOKING_MODE
deriving Repr, DecidableEq

/-- The creation flow step in `App.tsx` (`'MEDIA' | 'REVIEW'`): the spec's
Capturing and Reviewing states of the Draft Orchestrator. -/
inductive CreationStep where
| MEDIA
| REVIEW
deriving Repr, DecidableEq

/-- `Ingredient` from `types.ts` (also the shape of shopping-list items).
The optional `baseAmount`/`unit` fields are never read or written by the
code under verification and are omitted. -/
structure Ingredient where
  id : String
  item : String
  amount : String
  estimatedCost : ℚ
  category : String
  checked : Bool
deriving Repr, DecidableEq

/-- `Recipe` from `types.ts`. -/
structure Recipe where
  id : String
  title : String
  description : String
  ingredients : List Ingredient
  instructions : List String
  instructionThumbnails : Option (List String)
  tips : String
  imageUrl : Option String
  videoUrl : Option String
  authorId : String
  createdAt : ℕ
  tags : List String
  servings : ℕ
  prepTime : String
  difficulty : Option Difficulty
  calories : Option ℕ
deriving Repr, DecidableEq

/-- `User` from `types.ts`.  The role is kept as the enum's string value
(`'SUSU'` for the administrator, `'USER'` otherwise). -/
structure User where
  id : String
  name : String
  role : String
  avatar : String
  favorites : List String
  shoppingList : List Ingredient
deriving Repr, DecidableEq

/-- One ingredient of the structured generation result
(`RecipeGenResponse.ingredients` element in `types.ts`). -/
structure GenIngredient where
  item : String
  amount : String
  estimatedCost : ℚ
  category : String
deriving Repr, DecidableEq

/-- `RecipeGenResponse` from `types.ts`: the parsed result of the
transcribe-and-structure Gateway call. -/
structure RecipeGenResponse where
  title : String
  description : String
  ingredients : List GenIngredient
  instructions : List String
  tips : String
  servings : ℕ
  prepTime : String
  tags : List String
  difficulty : Difficulty
  calories : ℕ
deriving Repr, DecidableEq

/-- The `useState` cells of the `App` component that the verified core
reads and writes.  `currentStepIndex` is an integer because the cooking
mode clamps it with `Math.max`/`Math.min` over JS numbers. -/
structure AppState where
  users : List User
  currentUser : User
  recipes : List Recipe
  view : ViewState
  selectedRecipe : Option Recipe
  servingsMultiplier : ℚ
  currentStepIndex : ℤ
  isGenerating : Bool
  creationStep : CreationStep
  draftRecipe : Option Recipe
  capturedImage : Option String
deriving Repr, DecidableEq

/-- JavaScript string conversion of a positive multiple of `0.5`
(the only numbers the serving multiplier can hold): `2` prints as `"2"`,
`3/2` prints as `"1.5"`. -/
def jsHalfString (m : ℚ) : String :=
  if m.den = 1 then toString m.num else toString ((m.num - 1) / 2) ++ ".5"

/-- The scale tag appended to a shopping item label by
`addToShoppingList` in `App.tsx`:
`multiplier > 1 ? \x60(x${multiplier})\x60 : ''`. -/
def scaleMark (m : ℚ) : String :=
  if 1 < m then "(x" ++ jsHalfString m ++ ")" else ""

/-- The scale tag shown next to an ingredient amount in the detail view
(`renderDetail` in `App.tsx`):
`servingsMultiplier !== 1 && (x{servingsMultiplier})`. -/
def detailMark (m : ℚ) : String :=
  if m = 1 then "" else "(x" ++ jsHalfString m ++ ")"

/-- Rounding to two decimal places, the numeric content of
`(ing.estimatedCost * servingsMultiplier).toFixed(2)` in `renderDetail`. -/
def roundTo2 (x : ℚ) : ℚ :=
  (round (x * 100) : ℤ) / 100

/-- `Array.prototype.map((x, i) => f i x)` starting at index `k`:
the index-aware map used by the generation service and the draft
ingredient assignment. -/
def mapIdxFrom (f : ℕ → α → β) : ℕ → List α → List β
  | _, [] => []
  | k, a :: as => f k a :: mapIdxFrom f (k + 1) as

/-- `DEFAULT_USERS` from `App.tsx`: the fixed seed roster. -/
def DEFAULT_USERS : List User :=
  [ { id := "susu", name := "Susu", role := "SUSU",
      avatar := "https://images.unsplash.com/photo-1544005313-94ddf0286df2?ixlib=rb-4.0.3&auto=format&fit=crop&w=400&q=80",
      favorites := [], shoppingList := [] },
    { id := "dad", name := "Papa Joe", role := "USER",
      avatar := "https://images.unsplash.com/photo-1506794778202-cad84cf45f1d?ixlib=rb-4.0.3&auto=format&fit=crop&w=400&q=80",
      favorites := [], shoppingList := [] },
    { id := "kid1", name := "Sofia", role := "USER",
      avatar := "https://images.unsplash.com/photo-1494790108377-be9c29b29330?ixlib=rb-4.0.3&auto=format&fit=crop&w=400&q=80",
      favorites := [], shoppingList := [] },
    { id := "kid2", name := "Leo", role := "USER",
      avatar := "https://images.unsplash.com/photo-1507003211169-0a1dd7228f2d?ixlib=rb-4.0.3&auto=format&fit=crop&w=400&q=80",
      favorites := [], shoppingList := [] } ]

/-- `INITIAL_RECIPES` from `App.tsx`, first entry; `bootNow` stands for the
`Date.now()` evaluated when the module loads. -/
def sundayGravy (bootNow : ℕ) : Recipe :=
  { id := "rec-1", title := "Susu\x27s Sunday Gravy",
    description := "The secret family tomato sauce slowly simmered with pork ribs and meatballs. A Sunday tradition that brings everyone to the table.",
    ingredients :=
      [ { id := "ing-1", item := "Pork Ribs", amount := "1 lb", estimatedCost := 8.5, category := "Meat", checked := false },
        { id := "ing-2", item := "San Marzano Tomatoes", amount := "2 cans", estimatedCost := 6, category := "Pantry", checked := false },
        { id := "ing-3", item := "Garlic", amount := "5 cloves", estimatedCost := 0.5, category := "Produce", checked := false },
        { id := "ing-4", item := "Fresh Basil", amount := "1 bunch", estimatedCost := 2.5, category := "Produce", checked := false } ],
    instructions :=
      [ "Sear the pork ribs in a heavy pot until browned on all sides.",
        "Remove meat, add minced garlic and sauté until fragrant (don\x27t burn it!).",
        "Crush the tomatoes by hand and add them to the pot with the juices.",
        "Return meat to pot, add basil, and simmer on low for at least 4 hours." ],
    tips := "Don\x27t rush the onions! Let them caramelize slowly for the best sweetness.",
    imageUrl := some "https://images.unsplash.com/photo-1572449043416-55f4685c9bb7?ixlib=rb-4.0.3&auto=format&fit=crop&w=1200&q=80",
    videoUrl := none, instructionThumbnails := none,
    authorId := "susu", createdAt := bootNow,
    tags := ["Italian", "Dinner", "Slow Cook"],
    servings := 6, prepTime := "4 hours", difficulty := some .medium, calories := some 450 }

/-- `INITIAL_RECIPES` from `App.tsx`, second entry. -/
def ricottaPancakes (bootNow : ℕ) : Recipe :=
  { id := "rec-2", title := "Lemon Ricotta Pancakes",
    description := "Fluffy, light, and zesty. These pancakes are perfect for a special birthday breakfast.",
    ingredients :=
      [ { id := "ing-2-1", item := "Ricotta Cheese", amount := "1 cup", estimatedCost := 4, category := "Dairy", checked := false },
        { id := "ing-2-2", item := "Lemons", amount := "2", estimatedCost := 1.5, category := "Produce", checked := false },
        { id := "ing-2-3", item := "Flour", amount := "1.5 cups", estimatedCost := 0.5, category := "Pantry", checked := false } ],
    instructions :=
      [ "Whisk flour, sugar, and baking powder.",
        "In another bowl, mix ricotta, eggs, milk, and lemon zest.",
        "Fold wet into dry ingredients gently. Do not overmix!",
        "Cook on buttered griddle until golden." ],
    tips := "Use fresh ricotta for the best texture.",
    imageUrl := some "https://images.unsplash.com/photo-1506084868230-bb9d95c24759?ixlib=rb-4.0.3&auto=format&fit=crop&w=1200&q=80",
    videoUrl := none, instructionThumbnails := none,
    authorId := "susu", createdAt := bootNow,
    tags := ["Breakfast", "Sweet", "Easy"],
    servings := 4, prepTime := "20 mins", difficulty := some .easy, calories := some 320 }

/-- `INITIAL_RECIPES` from `App.tsx`, third entry. -/
def vineLeaves (bootNow : ℕ) : Recipe :=
  { id := "rec-3", title := "Grandma\x27s Stuffed Vine Leaves",
    description := "Delicate vine leaves rolled with aromatic rice, pine nuts, and currants. A labor of love.",
    ingredients :=
      [ { id := "ing-3-1", item := "Grape Leaves", amount := "1 jar", estimatedCost := 5, category := "Pantry", checked := false },
        { id := "ing-3-2", item := "Short Grain Rice", amount := "2 cups", estimatedCost := 2, category := "Pantry", checked := false },
        { id := "ing-3-3", item := "Dill & Mint", amount := "1 bunch each", estimatedCost := 3, category := "Produce", checked := false },
        { id := "ing-3-4", item := "Lemon Juice", amount := "1/2 cup", estimatedCost := 1, category := "Produce", checked := false } ],
    instructions :=
      [ "Rinse the grape leaves to remove brine.",
        "Mix rice with herbs, lemon, and olive oil.",
        "Place a spoonful of filling on a leaf, fold sides, and roll tight.",
        "Stack tightly in a pot, cover with water and lemon, and simmer." ],
    tips := "Place a heavy plate on top of the rolls while cooking to keep them tight.",
    imageUrl := some "https://images.unsplash.com/photo-1606923829571-0f2636499681?ixlib=rb-4.0.3&auto=format&fit=crop&w=1200&q=80",
    videoUrl := none, instructionThumbnails := none,
    authorId := "susu", createdAt := bootNow,
    tags := ["Appetizer", "Vegetarian", "Difficult"],
    servings := 8, prepTime := "2 hours", difficulty := some .hard, calories := some 150 }

/-- `INITIAL_RECIPES` from `App.tsx`, fourth entry. -/
def chickenMaqluba (bootNow : ℕ) : Recipe :=
  { id := "rec-4", title := "Chicken Maqluba",
    description := "The famous \"Upside Down\" rice dish with layers of eggplant, cauliflower, and spiced chicken.",
    ingredients :=
      [ { id := "ing-4-1", item := "Chicken Thighs", amount := "6 pieces", estimatedCost := 8, category := "Meat", checked := false },
        { id := "ing-4-2", item := "Eggplant", amount := "1 large", estimatedCost := 2, category := "Produce", checked := false },
        { id := "ing-4-3", item := "Cauliflower", amount := "1 head", estimatedCost := 3, category := "Produce", checked := false },
        { id := "ing-4-4", item := "Basmati Rice", amount := "3 cups", estimatedCost := 3, category := "Pantry", checked := false } ],
    instructions :=
      [ "Fry eggplant and cauliflower slices until golden.",
        "Boil chicken with aromatics (cardamom, cinnamon) to make broth.",
        "Layer veggies, chicken, and soaked rice in a pot.",
        "Add broth and cook. Flip upside down onto a platter to serve!" ],
    tips := "Let the pot rest for 15 minutes before flipping to hold the shape.",
    imageUrl := some "https://images.unsplash.com/photo-1512058564366-18510be2db19?ixlib=rb-4.0.3&auto=format&fit=crop&w=1200&q=80",
    videoUrl := none, instructionThumbnails := none,
    authorId := "susu", createdAt := bootNow,
    tags := ["Dinner", "Showstopper", "Family"],
    servings := 6, prepTime := "1.5 hours", difficulty := some .hard, calories := some 600 }

/-- `INITIAL_RECIPES` from `App.tsx`, fifth entry. -/
def walnutBaklava (bootNow : ℕ) : Recipe :=
  { id := "rec-5", title := "Honey Walnut Baklava",
    description := "Crispy layers of phyllo dough filled with crushed walnuts and soaked in orange blossom syrup.",
    ingredients :=
      [ { id := "ing-5-1", item := "Phyllo Dough", amount := "1 pack", estimatedCost := 4, category := "Frozen", checked := false },
        { id := "ing-5-2", item := "Walnuts", amount := "3 cups", estimatedCost := 10, category := "Pantry", checked := false },
        { id := "ing-5-3", item := "Butter", amount := "2 sticks", estimatedCost := 3, category := "Dairy", checked := false },
        { id := "ing-5-4", item := "Honey", amount := "1 cup", estimatedCost := 6, category := "Pantry", checked := false } ],
    instructions :=
      [ "Layer buttered phyllo sheets in a pan.",
        "Spread nut mixture every few layers.",
        "Cut into diamond shapes BEFORE baking.",
        "Pour cold syrup over hot pastry immediately after baking." ],
    tips := "The syrup must be cold and the baklava hot for it to stay crispy!",
    imageUrl := some "https://images.unsplash.com/photo-1519676867240-f03562e64548?ixlib=rb-4.0.3&auto=format&fit=crop&w=1200&q=80",
    videoUrl := none, instructionThumbnails := none,
    authorId := "susu", createdAt := bootNow,
    tags := ["Dessert", "Sweet", "Party"],
    servings := 12, prepTime := "1 hour", difficulty := some .medium, calories := some 400 }

/-- `INITIAL_RECIPES` from `App.tsx`, sixth entry. -/
def moroccanFishStew (bootNow : ℕ) : Recipe :=
  { id := "rec-6", title := "Spicy Moroccan Fish Stew",
    description := "White fish poached in a spicy tomato and pepper sauce with preserved lemons.",
    ingredients :=
      [ { id := "ing-6-1", item := "White Fish Fillets", amount := "4 fillets", estimatedCost := 12, category := "Meat", checked := false },
        { id := "ing-6-2", item := "Bell Peppers", amount := "3 mixed", estimatedCost := 3, category := "Produce", checked := false },
        { id := "ing-6-3", item := "Paprika & Cumin", amount := "2 tbsp", estimatedCost := 1, category := "Pantry", checked := false },
        { id := "ing-6-4", item := "Cilantro", amount := "1 bunch", estimatedCost := 1, category := "Produce", checked := false } ],
    instructions :=
      [ "Sauté peppers and garlic with spices.",
        "Add tomatoes and simmer to make a thick sauce.",
        "Nestle fish into the sauce and cover.",
        "Cook gently for 10-15 minutes. Garnish with cilantro." ],
    tips := "Serve with crusty bread to soak up the sauce.",
    imageUrl := some "https://images.unsplash.com/photo-1513222858102-4c280147cb23?ixlib=rb-4.0.3&auto=format&fit=crop&w=1200&q=80",
    videoUrl := none, instructionThumbnails := none,
    authorId := "susu", createdAt := bootNow,
    tags := ["Dinner", "Seafood", "Healthy"],
    servings := 4, prepTime := "40 mins", difficulty := some .medium, calories := some 350 }

/-- `INITIAL_RECIPES` from `App.tsx`. -/
def INITIAL_RECIPES (bootNow : ℕ) : List Recipe :=
  [ sundayGravy bootNow, ricottaPancakes bootNow, vineLeaves bootNow,
    chickenMaqluba bootNow, walnutBaklava bootNow, moroccanFishStew bootNow ]

/-- The `App` component's initial state (no persisted data to rehydrate). -/
def initState (bootNow : ℕ) : AppState :=
  { users := DEFAULT_USERS,
    currentUser :=
      { id := "susu", name := "Susu", role := "SUSU",
        avatar := "https://images.unsplash.com/photo-1544005313-94ddf0286df2?ixlib=rb-4.0.3&auto=format&fit=crop&w=400&q=80",
        favorites := [], shoppingList := [] },
    recipes := INITIAL_RECIPES bootNow,
    view := .HOME, selectedRecipe := none, servingsMultiplier := 1,
    currentStepIndex := 0, isGenerating := false, creationStep := .MEDIA,
    draftRecipe := none, capturedImage := none }

/-- The roster-mirroring `useEffect` of `App.tsx`
(`setUsers(prev => prev.map(u => u.id === currentUser.id ? currentUser : u))`),
run synchronously after every `setCurrentUser`: installs `u` as the active
profile and re-mirrors it into the roster by identity match. -/
def setActiveUser (u : User) (s : AppState) : AppState :=
  { s with currentUser := u,
           users := s.users.map fun x => if x.id = u.id then u else x }

/-- `handleSwitchUser` in `App.tsx`: looks the id up in the roster; on a
miss nothing happens, on a hit the found profile becomes active (the
mirror effect then fires) and navigation resets to the home view. -/
def handleSwitchUser (userId : String) (s : AppState) : AppState :=
  match s.users.find? (fun u => u.id = userId) with
  | none => s
  | some u => { setActiveUser u s with view := .HOME }

/-- `handleUpdateAvatar` in `App.tsx`: replaces the active profile's
avatar and writes through to the roster entry of matching id. -/
def handleUpdateAvatar (imageBase64 : String) (s : AppState) : AppState :=
  setActiveUser { s.currentUser with avatar := imageBase64 } s

/-- The favorite-toggle expression used by both `renderHome` and
`renderDetail` in `App.tsx`:
`isFav ? favorites.filter(id => id !== recipeId) : [...favorites, recipeId]`. -/
def toggleFavList (recipeId : String) (favs : List String) : List String :=
  if recipeId ∈ favs then favs.filter (fun i => i ≠ recipeId)
  else favs ++ [recipeId]

/-- `addToShoppingList` in `App.tsx`.  Each incoming ingredient is copied
with a freshly generated id (`shop-` followed by a timestamp-and-random
nonce, here a per-index parameter), `checked` reset to `false`, and the
label extended with the scale tag; the batch is appended to the active
profile's list. -/
def addToShoppingList (ings : List Ingredient) (nonce : ℕ → String) (s : AppState) : AppState :=
  let multiplier := s.servingsMultiplier
  let newItems := mapIdxFrom (fun i ing =>
    { ing with item := ing.item ++ " " ++ scaleMark multiplier,
               id := "shop-" ++ nonce i,
               checked := false }) 0 ings
  setActiveUser
    { s.currentUser with shoppingList := s.currentUser.shoppingList ++ newItems } s

/-- The per-profile mutations funnelled through the active profile
(favorite toggles, avatar update, shopping-list edits) as they appear
in `App.tsx`; every one ends in `setCurrentUser`, after which the
mirror effect fires. -/
inductive ProfileMutation where
| toggleFav (recipeId : String)
| setAvatar (imageBase64 : String)
| appendShopping (ings : List Ingredient) (nonce : ℕ → String)
| toggleChecked (itemId : String)
| removeItem (itemId : String)
| clearList

/-- Applies one active-profile mutation, including the roster mirror. -/
def applyMutation : ProfileMutation → AppState → AppState
  | .toggleFav rid, s =>
      setActiveUser { s.currentUser with favorites := toggleFavList rid s.currentUser.favorites } s
  | .setAvatar img, s => handleUpdateAvatar img s
  | .appendShopping ings nonce, s => addToShoppingList ings nonce s
  | .toggleChecked itemId, s =>
      setActiveUser
        { s.currentUser with shoppingList :=
            s.currentUser.shoppingList.map fun i =>
              if i.id = itemId then { i with checked := !i.checked } else i } s
  | .removeItem itemId, s =>
      setActiveUser
        { s.currentUser with shoppingList :=
            s.currentUser.shoppingList.filter fun i => i.id ≠ itemId } s
  | .clearList, s =>
      setActiveUser { s.currentUser with shoppingList := [] } s

/-- The draft built by `handleGenerateRecipe` in `App.tsx` from a parsed
generation result: spreads the structured fields, assigns
`id = rec-<now>`, the active profile as author, `createdAt = now`, a
fresh `ing-<now>-<index>` id per ingredient, and the captured photo (if
any) as hero image. -/
def mkDraft (genData : RecipeGenResponse) (now : ℕ) (s : AppState) : Recipe :=
  { id := "rec-" ++ toString now,
    title := genData.title,
    description := genData.description,
    ingredients := mapIdxFrom (fun idx ing =>
      { id := "ing-" ++ toString now ++ "-" ++ toString idx,
        item := ing.item, amount := ing.amount,
        estimatedCost := ing.estimatedCost, category := ing.category,
        checked := false }) 0 genData.ingredients,
    instructions := genData.instructions,
    instructionThumbnails := none,
    tips := genData.tips,
    imageUrl := s.capturedImage,
    videoUrl := none,
    authorId := s.currentUser.id,
    createdAt := now,
    tags := genData.tags,
    servings := genData.servings,
    prepTime := genData.prepTime,
    difficulty := some genData.difficulty,
    calories := some genData.calories }

/-- The condition under which `handleGenerateRecipe` fires the
fire-and-forget hero-image request:
`!capturedImage && newRecipe.title && newRecipe.description`. -/
def spawnsHeroRequest (s : AppState) (genData : RecipeGenResponse) : Bool :=
  s.capturedImage.isNone && !(genData.title == "") && !(genData.description == "")

/-- `handleGenerateRecipe` in `App.tsx`.  `genResult` is the awaited
outcome of `generateRecipeFromMedia` (a thrown transport error and an
unparsable `JSON.parse` result both surface as `Except.error`); `now`
is `Date.now()` during the call.  Returns the new state and the alert
shown to the user, if any.  On failure nothing but the transient
`isGenerating` flag is touched; on success the draft is installed and
the flow moves to the review step. -/
def handleGenerateRecipe (genResult : Except String RecipeGenResponse)
    (now : ℕ) (s : AppState) : AppState × Option String :=
  match genResult with
  | .error _ =>
      ({ s with isGenerating := false }, some "Susu didn\x27t quite catch that. Try again!")
  | .ok genData =>
      ({ s with draftRecipe := some (mkDraft genData now s),
                creationStep := .REVIEW,
                isGenerating := false }, none)

/-- The `.then` continuation of the fire-and-forget hero-image request in
`handleGenerateRecipe`:
`setDraftRecipe(prev => prev ? ({ ...prev, imageUrl: url }) : null)`.
The only staleness guard is the null check on the current draft. -/
def resolveHeroImage (url : String) (s : AppState) : AppState :=
  { s with draftRecipe :=
      match s.draftRecipe with
      | none => none
      | some d => some { d with imageUrl := some url } }

/-- The Discard button of the review step in `renderCreate`
(`setCreationStep('MEDIA'); setDraftRecipe(null)`). -/
def discardDraft (s : AppState) : AppState :=
  { s with creationStep := .MEDIA, draftRecipe := none }

/-- `handleSaveRecipe` in `App.tsx`: commits the draft when it exists and
its title is non-empty (JS truthiness of `draftRecipe.title`), prepending
it to the recipe collection and resetting the creation flow; otherwise a
no-op. -/
def handleSaveRecipe (s : AppState) : AppState :=
  match s.draftRecipe with
  | some d =>
      if d.title ≠ "" then
        { s with recipes := d :: s.recipes,
                 draftRecipe := none,
                 capturedImage := none,
                 creationStep := .MEDIA,
                 view := .HOME }
      else s
  | none => s

/-- `generateInstructionThumbnails` from the generation service module.
`gen i inst` is the awaited per-step outcome: `some img` when the model
returned inline image data for step `i`, `none` when the request threw
or returned no image — either way the slot degrades to `""` and the
joined batch keeps one slot per instruction, in order. -/
def generateInstructionThumbnails (gen : ℕ → String → Option String)
    (instructions : List String) : List String :=
  mapIdxFrom (fun i inst => (gen i inst).getD "") 0 instructions

/-- `handleVisualizeSteps` in `App.tsx`: runs the thumbnail batch over the
displayed recipe's instructions and writes the full list both into the
displayed reference and into the collection entry of matching id. -/
def handleVisualizeSteps (gen : ℕ → String → Option String) (s : AppState) : AppState :=
  match s.selectedRecipe with
  | none => s
  | some r =>
      let thumbnails := generateInstructionThumbnails gen r.instructions
      let updatedRecipe := { r with instructionThumbnails := some thumbnails }
      { s with selectedRecipe := some updatedRecipe,
               recipes := s.recipes.map fun x =>
                 if x.id = updatedRecipe.id then updatedRecipe else x,
               isGenerating := false }

/-- `handleGenerateVideoForActiveRecipe` in `App.tsx`.  `videoResult` is
the awaited outcome of `generateRecipeVideo`; on success the object URL
is written into the displayed recipe and the collection entry of
matching id, on failure only an alert is shown. -/
def handleGenerateVideoForActiveRecipe (videoResult : Except String String)
    (s : AppState) : AppState :=
  match s.selectedRecipe with
  | none => s
  | some r =>
      match videoResult with
      | .error _ => { s with isGenerating := false }
      | .ok videoUrl =>
          let updatedRecipe := { r with videoUrl := some videoUrl }
          { s with selectedRecipe := some updatedRecipe,
                   recipes := s.recipes.map fun x =>
                     if x.id = updatedRecipe.id then updatedRecipe else x,
                   isGenerating := false }

/-- The serving-multiplier increase button in `renderDetail`
(`setServingsMultiplier(servingsMultiplier + 0.5)`). -/
def incMult (s : AppState) : AppState :=
  { s with servingsMultiplier := s.servingsMultiplier + 1/2 }

/-- The serving-multiplier decrease button in `renderDetail`
(`setServingsMultiplier(Math.max(0.5, servingsMultiplier - 0.5))`). -/
def decMult (s : AppState) : AppState :=
  { s with servingsMultiplier := max (1/2) (s.servingsMultiplier - 1/2) }

/-- Multiplier values reachable from the default `1` by the two buttons. -/
inductive ReachableMult : ℚ → Prop where
| base : ReachableMult 1
| up {m : ℚ} : ReachableMult m → ReachableMult (m + 1/2)
| down {m : ℚ} : ReachableMult m → ReachableMult (max (1/2) (m - 1/2))

/-- The display data computed for one ingredient row of `renderDetail`:
the amount text as stored, the scale tag, and the scaled cost — a pure
function of the multiplier and the ingredient. -/
def displayRow (m : ℚ) (ing : Ingredient) : String × String × ℚ :=
  (ing.amount, detailMark m, roundTo2 (ing.estimatedCost * m))

/-- The Start Cooking Mode button in `renderDetail`
(`setCurrentStepIndex(0); setView('COOKING_MODE')`). -/
def enterCookingMode (s : AppState) : AppState :=
  { s with currentStepIndex := 0, view := .COOKING_MODE }

/-- The two step-changing actions of `renderCookingMode`. -/
inductive CookAction where
| prevStep
| nextStep
deriving Repr, DecidableEq

/-- The cooking-mode button handlers in `renderCookingMode`:
`Math.max(0, i - 1)` and `Math.min(instructions.length - 1, i + 1)`
over the selected recipe (without a selected recipe the view renders
nothing and no handler can run). -/
def applyCook : CookAction → AppState → AppState
  | .prevStep, s =>
      match s.selectedRecipe with
      | none => s
      | some _ => { s with currentStepIndex := max 0 (s.currentStepIndex - 1) }
  | .nextStep, s =>
      match s.selectedRecipe with
      | none => s
      | some r =>
          let clamped := min ((r.instructions.length : ℤ) - 1) (s.currentStepIndex + 1)
          { s with currentStepIndex := clamped }

/-- A sample structured generation result used for concrete runs. -/
def genT : RecipeGenResponse :=
  { title := "Tea", description := "Hot tea", ingredients := [],
    instructions := ["Boil water.", "Steep the leaves."], tips := "",
    servings := 1, prepTime := "5 mins", tags := [], difficulty := .easy,
    calories := 10 }

/-- A sample generation result for a first draft (no photo captured, so
the hero-image request fires for it). -/
def genA : RecipeGenResponse :=
  { title := "Dish A", description := "Desc A", ingredients := [],
    instructions := ["Step A."], tips := "", servings := 2,
    prepTime := "10 mins", tags := [], difficulty := .easy, calories := 100 }

/-- A sample generation result for a second, later draft. -/
def genB : RecipeGenResponse :=
  { title := "Dish B", description := "Desc B", ingredients := [],
    instructions := ["Step B."], tips := "", servings := 3,
    prepTime := "15 mins", tags := [], difficulty := .hard, calories := 200 }

/-- The Garlic seed ingredient of Susu\x27s Sunday Gravy. -/
def garlicIng : Ingredient :=
  { id := "ing-3", item := "Garlic", amount := "5 cloves",
    estimatedCost := 0.5, category := "Produce", checked := false }

/-- The app just after switching the active profile to Papa Joe and
stepping the serving multiplier to 2 on the detail view. -/
def papaState : AppState :=
  { handleSwitchUser "dad" (initState 0) with servingsMultiplier := 2 }

/-- The state after generating draft A (no photo) at time 100,
discarding it, and generating a fresh draft B at time 200 while A's
hero-image request is still in flight. -/
def crossDraftState : AppState :=
  (handleGenerateRecipe (.ok genB) 200
    (discardDraft (handleGenerateRecipe (.ok genA) 100 (initState 0)).1)).1

theorem length_mapIdxFrom (f : ℕ → α → β) (k : ℕ) (l : List α) :
    (mapIdxFrom f k l).length = l.length := by
  induction l generalizing k with
  | nil => rfl
  | cons a as ih => simp [mapIdxFrom, ih]

theorem getElem?_mapIdxFrom (f : ℕ → α → β) (k : ℕ) (l : List α) (i : ℕ) :
    (mapIdxFrom f k l)[i]? = l[i]?.map (f (k + i)) := by
  induction l generalizing k i with
  | nil => simp [mapIdxFrom]
  | cons a as ih =>
    cases i with
    | zero => simp [mapIdxFrom]
    | succ n =>
      have hkn : k + 1 + n = k + (n + 1) := by omega
      simp only [mapIdxFrom, List.getElem?_cons_succ, ih (k + 1) n, hkn]

theorem mem_toggleFavList_twice (recipeId x : String) (favs : List String) :
    x ∈ toggleFavList recipeId (toggleFavList recipeId favs) ↔ x ∈ favs := by
  by_cases h : recipeId ∈ favs
  · have h1 : recipeId ∉ favs.filter (fun i => i ≠ recipeId) := by simp
    have e1 : toggleFavList recipeId favs = favs.filter (fun i => i ≠ recipeId) := by
      rw [toggleFavList, if_pos h]
    have e2 : toggleFavList recipeId (favs.filter (fun i => i ≠ recipeId)) =
        favs.filter (fun i => i ≠ recipeId) ++ [recipeId] := by
      rw [toggleFavList, if_neg h1]
    rw [e1, e2]
    simp only [List.mem_append, List.mem_filter, List.mem_singleton, decide_eq_true_eq]
    constructor
    · rintro (⟨hx, _⟩ | rfl)
      · exact hx
      · exact h
    · intro hx
      by_cases hxr : x = recipeId
      · right; exact hxr
      · left; exact ⟨hx, hxr⟩
  · have h1 : recipeId ∈ favs ++ [recipeId] := by simp
    have e1 : toggleFavList recipeId favs = favs ++ [recipeId] := by
      rw [toggleFavList, if_neg h]
    have e2 : toggleFavList recipeId (favs ++ [recipeId]) =
        (favs ++ [recipeId]).filter (fun i => i ≠ recipeId) := by
      rw [toggleFavList, if_pos h1]
    rw [e1, e2]
    simp only [List.filter_append, List.mem_append, List.mem_filter, decide_eq_true_eq]
    constructor
    · rintro (⟨hx, _⟩ | hx)
      · exact hx
      · simp at hx
    · intro hx
      left
      exact ⟨hx, fun hxr => h (hxr ▸ hx)⟩

/-- C9: `toggleFavorite(recipeId)` is a symmetric set-membership toggle on
the active profile's favorites: for every state, recipe id and element,
applying the toggle twice returns the favorites to the same set
(membership is restored exactly). -/
theorem favorite_toggle_involutive (s : AppState) (recipeId x : String) :
    x ∈ (applyMutation (.toggleFav recipeId)
          (applyMutation (.toggleFav recipeId) s)).currentUser.favorites ↔
      x ∈ s.currentUser.favorites := by
  show x ∈ toggleFavList recipeId (toggleFavList recipeId s.currentUser.favorites) ↔ _
  exact mem_toggleFavList_twice recipeId x s.currentUser.favorites

/-- C5: the thumbnail batch yields exactly one slot per instruction, in
input order; a per-step failure (`gen i inst = none`) degrades to the
empty placeholder `""` at index `i` without affecting the other slots;
and after `handleVisualizeSteps` attaches the batch, the displayed
recipe's `instructionThumbnails` has the same length as its
`instructions`. -/
theorem thumbnails_one_per_instruction (gen : ℕ → String → Option String)
    (instructions : List String) (s : AppState) (r : Recipe)
    (hsel : s.selectedRecipe = some r) :
    (generateInstructionThumbnails gen instructions).length = instructions.length ∧
    (∀ i : ℕ, (generateInstructionThumbnails gen instructions)[i]? =
      instructions[i]?.map (fun inst => (gen i inst).getD "")) ∧
    ((handleVisualizeSteps gen s).selectedRecipe =
      some { r with instructionThumbnails := some (generateInstructionThumbnails gen r.instructions) }) ∧
    (∀ r', (handleVisualizeSteps gen s).selectedRecipe = some r' →
      r'.instructionThumbnails.map List.length = some r.instructions.length) := by
  refine ⟨length_mapIdxFrom _ _ _, ?_, ?_, ?_⟩
  · intro i
    simpa using getElem?_mapIdxFrom (fun i inst => (gen i inst).getD "") 0 instructions i
  · simp [handleVisualizeSteps, hsel]
  · intro r' hr'
    simp only [handleVisualizeSteps, hsel] at hr'
    cases hr'
    simp [length_mapIdxFrom, generateInstructionThumbnails]

/-- C5 witness: the spec's example — three steps where the second fails
yields a three-slot batch with index 1 empty and the others populated,
and the attached thumbnail list matches the instruction count. -/
theorem thumbnails_one_per_instruction_witness :
    generateInstructionThumbnails
        (fun i _ => if i = 1 then none else some ("img" ++ toString i))
        ["a", "b", "c"] = ["img0", "", "img2"] ∧
    (handleVisualizeSteps
        (fun i _ => if i = 1 then none else some ("img" ++ toString i))
        { initState 7 with selectedRecipe := some (sundayGravy 7) }).selectedRecipe.map
      (fun r => r.instructionThumbnails.map List.length) = some (some 4) := by
  have h := thumbnails_one_per_instruction
    (fun i _ => if i = 1 then none else some ("img" ++ toString i))
    ["a", "b", "c"]
    { initState 7 with selectedRecipe := some (sundayGravy 7) }
    (sundayGravy 7) rfl
  refine ⟨by rfl, ?_⟩
  rw [h.2.2.1]
  rfl

/-- C7: if the transcribe-and-structure call fails (thrown transport
error or unparsable result), the Capturing → Reviewing transition does
not occur: the state is exactly as before the call (in particular the
creation flow step, the draft and the recipe collection), and the user
receives the recoverable alert. -/
theorem narration_failure_keeps_state (s : AppState) (e : String) (now : ℕ)
    (h : s.isGenerating = false) :
    (handleGenerateRecipe (.error e) now s).1 = s ∧
    (handleGenerateRecipe (.error e) now s).1.creationStep = s.creationStep ∧
    (handleGenerateRecipe (.error e) now s).1.draftRecipe = s.draftRecipe ∧
    (handleGenerateRecipe (.error e) now s).1.recipes = s.recipes ∧
    (handleGenerateRecipe (.error e) now s).2 =
      some "Susu didn\x27t quite catch that. Try again!" := by
  have hs : ({ s with isGenerating := false } : AppState) = s := by
    cases s
    simp_all
  have h1 : (handleGenerateRecipe (.error e) now s).1 = s := hs
  exact ⟨h1, by rw [h1], by rw [h1], by rw [h1], rfl⟩

/-- C7 witness: a failed Gateway call from the freshly booted app leaves
the state untouched and surfaces the recoverable alert. -/
theorem narration_failure_keeps_state_witness :
    (handleGenerateRecipe (.error "network") 42 (initState 0)).1 = initState 0 ∧
    (handleGenerateRecipe (.error "network") 42 (initState 0)).2 =
      some "Susu didn\x27t quite catch that. Try again!" := by
  have h := narration_failure_keeps_state (initState 0) "network" 42 rfl
  exact ⟨h.1, h.2.2.2.2⟩

theorem currentUser_id_applyMutation (m : ProfileMutation) (s : AppState) :
    (applyMutation m s).currentUser.id = s.currentUser.id := by
  cases m <;> rfl

theorem activeMirrored_setActiveUser (u : User) (s : AppState) :
    ∀ x ∈ (setActiveUser u s).users,
      x.id = (setActiveUser u s).currentUser.id → x = (setActiveUser u s).currentUser := by
  intro x hx hid
  simp only [setActiveUser, List.mem_map] at hx
  obtain ⟨y, _, rfl⟩ := hx
  by_cases hyy : y.id = u.id
  · simp [setActiveUser, hyy]
  · simp only [setActiveUser, if_neg hyy] at hid ⊢
    exact absurd hid hyy

theorem users_applyMutation (m : ProfileMutation) (s : AppState) :
    (applyMutation m s).users = s.users.map
      (fun x => if x.id = s.currentUser.id then (applyMutation m s).currentUser else x) := by
  cases m <;> rfl

theorem eq_of_mem_of_id_eq {l : List User}
    (h : l.Pairwise (fun a b => a.id ≠ b.id)) {x y : User}
    (hx : x ∈ l) (hy : y ∈ l) (hid : x.id = y.id) : x = y := by
  induction l with
  | nil => cases hx
  | cons a as ih =>
    rcases List.mem_cons.mp hx with rfl | hx'
    · rcases List.mem_cons.mp hy with rfl | hy'
      · rfl
      · exact absurd hid ((List.pairwise_cons.mp h).1 y hy')
    · rcases List.mem_cons.mp hy with rfl | hy'
      · exact absurd hid.symm ((List.pairwise_cons.mp h).1 x hx')
      · exact ih (List.pairwise_cons.mp h).2 hx' hy'

theorem users_handleSwitchUser (userId : String) (s : AppState)
    (hnodup : s.users.Pairwise (fun a b => a.id ≠ b.id)) :
    (handleSwitchUser userId s).users = s.users := by
  rw [handleSwitchUser]
  cases hfind : s.users.find? (fun u => u.id = userId) with
  | none => rfl
  | some u2 =>
    have hmem : u2 ∈ s.users := List.mem_of_find?_eq_some hfind
    show s.users.map (fun x => if x.id = u2.id then u2 else x) = s.users
    have : ∀ x ∈ s.users, (if x.id = u2.id then u2 else x) = x := by
      intro x hxmem
      by_cases hxi : x.id = u2.id
      · rw [if_pos hxi, eq_of_mem_of_id_eq hnodup hxmem hmem hxi]
      · rw [if_neg hxi]
    rw [List.map_congr_left this]
    exact List.map_id s.users

theorem currentUser_handleSwitchUser (userId : String) (s : AppState)
    (hmem : ∃ u ∈ s.users, u.id = userId) :
    (handleSwitchUser userId s).currentUser ∈ s.users ∧
    (handleSwitchUser userId s).currentUser.id = userId := by
  rw [handleSwitchUser]
  cases hfind : s.users.find? (fun u => u.id = userId) with
  | none =>
    rw [List.find?_eq_none] at hfind
    obtain ⟨u, hu, hid⟩ := hmem
    exact absurd (by simpa using hid) (hfind u hu)
  | some u2 =>
    refine ⟨List.mem_of_find?_eq_some hfind, ?_⟩
    have := List.find?_some hfind
    simpa using this

/-- C3: the roster entry whose id matches the active profile always
equals the active profile after every active-profile mutation (the
mirror effect); a mutation never changes a roster entry of a different
id; and switching from the active profile P1 to any P2 and back
restores P1 — favorites and shopping list included — exactly as last
mutated. -/
theorem active_profile_mirror (m : ProfileMutation) (s : AppState) :
    (∀ x ∈ (applyMutation m s).users,
      x.id = (applyMutation m s).currentUser.id → x = (applyMutation m s).currentUser) ∧
    (∀ i : ℕ, (applyMutation m s).users[i]? = s.users[i]?.map
      (fun x => if x.id = s.currentUser.id then (applyMutation m s).currentUser else x)) ∧
    (∀ x ∈ s.users, x.id ≠ s.currentUser.id → x ∈ (applyMutation m s).users) ∧
    (∀ p2 : String,
      s.users.Pairwise (fun a b => a.id ≠ b.id) →
      (∀ u ∈ s.users, u.id = s.currentUser.id → u = s.currentUser) →
      (∃ u ∈ s.users, u.id = s.currentUser.id) →
      (∃ u ∈ s.users, u.id = p2) →
      (handleSwitchUser s.currentUser.id (handleSwitchUser p2 s)).currentUser = s.currentUser ∧
      (handleSwitchUser s.currentUser.id (handleSwitchUser p2 s)).currentUser.favorites =
        s.currentUser.favorites ∧
      (handleSwitchUser s.currentUser.id (handleSwitchUser p2 s)).currentUser.shoppingList =
        s.currentUser.shoppingList) := by
  refine ⟨?_, ?_, ?_, ?_⟩
  · cases m <;> exact activeMirrored_setActiveUser _ _
  · intro i
    rw [users_applyMutation, List.getElem?_map]
  · intro x hx hxid
    rw [users_applyMutation]
    refine List.mem_map.mpr ⟨x, hx, ?_⟩
    rw [if_neg hxid]
  · intro p2 hnodup hmir hmem hp2
    have husers2 : (handleSwitchUser p2 s).users = s.users :=
      users_handleSwitchUser p2 s hnodup
    have hmem1 : ∃ u ∈ (handleSwitchUser p2 s).users, u.id = s.currentUser.id := by
      rw [husers2]; exact hmem
    have h3 := currentUser_handleSwitchUser s.currentUser.id (handleSwitchUser p2 s) hmem1
    rw [husers2] at h3
    have heq : (handleSwitchUser s.currentUser.id (handleSwitchUser p2 s)).currentUser =
        s.currentUser := hmir _ h3.1 h3.2
    exact ⟨heq, by rw [heq], by rw [heq]⟩

/-- C3 witness: after Susu favorites `rec-1` from the seed state, the
roster's `susu` entry carries the favorite; switching to Papa Joe and
back to Susu restores her favorites and shopping list exactly. -/
theorem active_profile_mirror_witness :
    ((applyMutation (.toggleFav "rec-1") (initState 0)).users.find?
      (fun u => u.id = "susu")).map User.favorites = some ["rec-1"] ∧
    (handleSwitchUser "susu"
      (handleSwitchUser "dad" (applyMutation (.toggleFav "rec-1") (initState 0)))).currentUser.favorites =
      ["rec-1"] := by
  have h0 := active_profile_mirror (.toggleFav "rec-1") (initState 0)
  have h1 := active_profile_mirror (.toggleFav "rec-1")
    (applyMutation (.toggleFav "rec-1") (initState 0))
  refine ⟨rfl, ?_⟩
  have hrt := h1.2.2.2 "dad" (by decide) h0.1 (by decide) (by decide)
  exact hrt.2.1

/-- C1 (amended): a Recipe is created by `handleSaveRecipe` exactly when
the draft's title is non-empty — with an empty title the whole state is
untouched — and when created it is prepended to the collection, the
draft and captured photo are cleared and the flow returns to Capturing;
the committed Recipe's id, author and `createdAt`, however, are the ones
assigned when the draft was generated (author = profile active at
generation, `createdAt` = generation time), and commit does not reassign
them. -/
theorem commit_requires_title (s : AppState) (d : Recipe)
    (hd : s.draftRecipe = some d) :
    (d.title = "" → handleSaveRecipe s = s) ∧
    (d.title ≠ "" →
      (handleSaveRecipe s).recipes = d :: s.recipes ∧
      (handleSaveRecipe s).draftRecipe = none ∧
      (handleSaveRecipe s).capturedImage = none ∧
      (handleSaveRecipe s).creationStep = CreationStep.MEDIA ∧
      (handleSaveRecipe s).view = ViewState.HOME) ∧
    (∀ (gen : RecipeGenResponse) (now : ℕ) (s₀ : AppState),
      (handleGenerateRecipe (.ok gen) now s₀).1.draftRecipe = some (mkDraft gen now s₀) ∧
      (mkDraft gen now s₀).authorId = s₀.currentUser.id ∧
      (mkDraft gen now s₀).createdAt = now ∧
      (mkDraft gen now s₀).id = "rec-" ++ toString now) := by
  refine ⟨?_, ?_, fun gen now s₀ => ⟨rfl, rfl, rfl, rfl⟩⟩
  · intro ht
    simp [handleSaveRecipe, hd, ht]
  · intro ht
    simp [handleSaveRecipe, hd, ht]

/-- C1 counterexample: generate a draft at time 100 and commit it later
(at any distinct commit time, say 200): the committed Recipe's
`createdAt` is still 100, the generation time, not the commit time as
the claim demands. -/
theorem commit_time_is_generation_time :
    (handleSaveRecipe (handleGenerateRecipe (.ok genT) 100 (initState 0)).1).recipes.head?.map
      Recipe.createdAt = some 100 ∧ (100 : ℕ) ≠ 200 := by
  exact ⟨rfl, by decide⟩

/-- C1 witness: committing the generated `genT` draft prepends it, clears
the draft and returns the flow to Capturing on the home view. -/
theorem commit_requires_title_witness :
    (handleSaveRecipe (handleGenerateRecipe (.ok genT) 100 (initState 0)).1).recipes =
      mkDraft genT 100 (initState 0) :: INITIAL_RECIPES 0 ∧
    (handleSaveRecipe (handleGenerateRecipe (.ok genT) 100 (initState 0)).1).draftRecipe = none ∧
    (handleSaveRecipe (handleGenerateRecipe (.ok genT) 100 (initState 0)).1).view = ViewState.HOME ∧
    (mkDraft genT 100 (initState 0)).authorId = "susu" := by
  have h := commit_requires_title (handleGenerateRecipe (.ok genT) 100 (initState 0)).1
    (mkDraft genT 100 (initState 0)) rfl
  have h2 := h.2.1 (by decide)
  exact ⟨h2.1, h2.2.1, h2.2.2.2.2, rfl⟩

theorem scaleMark_eq_empty_iff (m : ℚ) : scaleMark m = "" ↔ ¬ 1 < m := by
  rw [scaleMark]
  by_cases h : 1 < m
  · rw [if_pos h]
    constructor
    · intro he
      have hd := congrArg String.data he
      simp [String.data_append] at hd
    · intro hc
      exact absurd h hc
  · rw [if_neg h]
    simp [h]

theorem shop_id_fresh (nonce : String) (ingId : String)
    (h : ¬ ("shop-".data <+: ingId.data)) : "shop-" ++ nonce ≠ ingId := by
  intro he
  have hd := congrArg String.data he
  rw [String.data_append] at hd
  exact h ⟨nonce.data, hd⟩

/-- C2 (amended): every item appended to the active profile's shopping
list by `addToShoppingList` gets a fresh `shop-`-prefixed identity
(never equal to a Recipe ingredient id, which does not carry that
prefix), `checked = false`, and a label extending the ingredient name
with the scale tag — but the tag is present exactly when the multiplier
exceeds 1 (not whenever it differs from 1): present at m = 2, absent at
m = 1 and also absent at m = 0.5. -/
theorem shopping_append_spec (s : AppState) (ings : List Ingredient) (nonce : ℕ → String) :
    ((addToShoppingList ings nonce s).currentUser.shoppingList =
      s.currentUser.shoppingList ++ mapIdxFrom (fun i ing =>
        { ing with item := ing.item ++ " " ++ scaleMark s.servingsMultiplier,
                   id := "shop-" ++ nonce i, checked := false }) 0 ings) ∧
    (∀ i : ℕ, (mapIdxFrom (fun i ing =>
        { ing with item := ing.item ++ " " ++ scaleMark s.servingsMultiplier,
                   id := "shop-" ++ nonce i, checked := false }) 0 ings)[i]? =
      ings[i]?.map (fun ing =>
        { ing with item := ing.item ++ " " ++ scaleMark s.servingsMultiplier,
                   id := "shop-" ++ nonce i, checked := false })) ∧
    (∀ ing : Ingredient, ¬ ("shop-".data <+: ing.id.data) →
      ∀ i : ℕ, ("shop-" ++ nonce i) ≠ ing.id) ∧
    (scaleMark s.servingsMultiplier = "" ↔ ¬ 1 < s.servingsMultiplier) := by
  refine ⟨rfl, ?_, ?_, scaleMark_eq_empty_iff _⟩
  · intro i
    simpa using getElem?_mapIdxFrom _ 0 ings i
  · intro ing h i
    exact shop_id_fresh (nonce i) ing.id h

/-- C2 counterexample: at multiplier 0.5 — reachable and different from
1 — the scale tag is empty, and the Garlic item stored from a
multiplier-0.5 state is labelled `"Garlic "` with no trace of the
multiplier, falsifying "the annotation is present at m = 0.5". -/
theorem shopping_mark_absent_at_half :
    scaleMark (1/2) = "" ∧ ((1/2 : ℚ) ≠ 1) ∧
    (addToShoppingList [garlicIng] (fun _ => "n0")
      { initState 0 with servingsMultiplier := 1/2 }).currentUser.shoppingList.head?.map
        Ingredient.item = some "Garlic " := by
  have hmark : scaleMark (1/2 : ℚ) = "" := by rw [scaleMark, if_neg (by norm_num)]
  refine ⟨hmark, by norm_num, ?_⟩
  show some ("Garlic" ++ " " ++ scaleMark (1/2 : ℚ)) = some "Garlic "
  rw [hmark]
  rfl

/-- C2 witness: the spec's scenario — Garlic added at multiplier 2 under
Papa Joe yields the label "Garlic (x2)", `checked = false`, and a fresh
`shop-` id distinct from the seed ingredient id `ing-3`. -/
theorem shopping_append_spec_witness :
    (addToShoppingList [garlicIng] (fun _ => "n0") papaState).currentUser.shoppingList.map
      (fun i => (i.id, i.item, i.checked)) = [("shop-n0", "Garlic (x2)", false)] ∧
    ("shop-" ++ "n0") ≠ garlicIng.id := by
  have h := shopping_append_spec papaState [garlicIng] (fun _ => "n0")
  constructor
  · rw [h.1]
    rfl
  · exact h.2.2.1 garlicIng (by decide) 0

/-- C4 (amended): when the hero-image request resolves after the draft
was discarded (and no new draft exists), the result is dropped silently
and nothing — no draft, no recipe — is mutated; but the guard is only
the null check on the current draft, not a key on draft identity, so
whenever any draft is current at resolution time the result attaches to
it, even if the request was spawned for an earlier, different draft. -/
theorem hero_image_null_guard (s : AppState) (url : String) :
    (s.draftRecipe = none → resolveHeroImage url s = s) ∧
    ((resolveHeroImage url s).recipes = s.recipes) ∧
    (∀ d : Recipe, s.draftRecipe = some d →
      (resolveHeroImage url s).draftRecipe = some { d with imageUrl := some url }) := by
  refine ⟨?_, rfl, ?_⟩
  · intro h
    rw [resolveHeroImage, h]
    cases s
    simp_all
  · intro d hd
    rw [resolveHeroImage, hd]

/-- C4 counterexample: the hero-image request fires for draft A
(`rec-100`); A is discarded and draft B (`rec-200`) generated before the
request resolves; at resolution the result is attached to B — a
different draft created later — falsifying the claimed identity-keyed
stale-result protection. -/
theorem hero_image_attaches_cross_draft :
    spawnsHeroRequest (initState 0) genA = true ∧
    (handleGenerateRecipe (.ok genA) 100 (initState 0)).1.draftRecipe.map Recipe.id =
      some "rec-100" ∧
    crossDraftState.draftRecipe.map Recipe.id = some "rec-200" ∧
    (resolveHeroImage "urlA" crossDraftState).draftRecipe.map
      (fun d => (d.id, d.imageUrl)) = some ("rec-200", some "urlA") := by
  exact ⟨rfl, rfl, rfl, rfl⟩

/-- C4 witness: with no current draft the late result is dropped whole;
with a current draft it attaches to that draft. -/
theorem hero_image_null_guard_witness :
    resolveHeroImage "urlZ" (initState 3) = initState 3 ∧
    (resolveHeroImage "urlX" (handleGenerateRecipe (.ok genA) 100 (initState 0)).1).draftRecipe =
      some { mkDraft genA 100 (initState 0) with imageUrl := some "urlX" } := by
  exact ⟨(hero_image_null_guard (initState 3) "urlZ").1 rfl,
    (hero_image_null_guard (handleGenerateRecipe (.ok genA) 100 (initState 0)).1 "urlX").2.2
      (mkDraft genA 100 (initState 0)) rfl⟩

/-- C6: on video-generation success the reference lands both in the
displayed recipe and in the collection entry of matching id — the very
same updated record, which differs from the original only in its
`videoUrl` field — while entries of any other id are untouched and the
collection keeps its length. -/
theorem video_attached_to_displayed_and_stored (s : AppState) (r : Recipe) (url : String)
    (hsel : s.selectedRecipe = some r) :
    ((handleGenerateVideoForActiveRecipe (.ok url) s).selectedRecipe =
      some { r with videoUrl := some url }) ∧
    ((handleGenerateVideoForActiveRecipe (.ok url) s).recipes.length = s.recipes.length) ∧
    (∀ i : ℕ, (handleGenerateVideoForActiveRecipe (.ok url) s).recipes[i]? =
      s.recipes[i]?.map (fun x => if x.id = r.id then { r with videoUrl := some url } else x)) ∧
    (∀ x ∈ s.recipes, x.id ≠ r.id →
      x ∈ (handleGenerateVideoForActiveRecipe (.ok url) s).recipes) ∧
    (∀ x ∈ s.recipes, x.id = r.id →
      { r with videoUrl := some url } ∈
        (handleGenerateVideoForActiveRecipe (.ok url) s).recipes) := by
  have hun : (handleGenerateVideoForActiveRecipe (.ok url) s).recipes =
      s.recipes.map (fun x => if x.id = r.id then { r with videoUrl := some url } else x) := by
    rw [handleGenerateVideoForActiveRecipe, hsel]
  refine ⟨?_, ?_, ?_, ?_, ?_⟩
  · rw [handleGenerateVideoForActiveRecipe, hsel]
  · rw [hun, List.length_map]
  · intro i
    rw [hun, List.getElem?_map]
  · intro x hx hxid
    rw [hun]
    exact List.mem_map.mpr ⟨x, hx, by rw [if_neg hxid]⟩
  · intro x hx hxid
    rw [hun]
    exact List.mem_map.mpr ⟨x, hx, by rw [if_pos hxid]⟩

/-- C6 witness: attaching a video to the displayed Lemon Ricotta
Pancakes (`rec-2`) updates exactly the collection slot of that id —
slot 0 (`rec-1`) keeps its entry — and the displayed reference equals
the stored one. -/
theorem video_attached_witness :
    ((handleGenerateVideoForActiveRecipe (.ok "blob:v1")
      { initState 0 with selectedRecipe := some (ricottaPancakes 0), view := .RECIPE_DETAIL }).selectedRecipe =
      some { ricottaPancakes 0 with videoUrl := some "blob:v1" }) ∧
    ((handleGenerateVideoForActiveRecipe (.ok "blob:v1")
      { initState 0 with selectedRecipe := some (ricottaPancakes 0), view := .RECIPE_DETAIL }).recipes[1]?.map
        Recipe.videoUrl = some (some "blob:v1")) ∧
    ((handleGenerateVideoForActiveRecipe (.ok "blob:v1")
      { initState 0 with selectedRecipe := some (ricottaPancakes 0), view := .RECIPE_DETAIL }).recipes[0]?.map
        Recipe.videoUrl = some none) := by
  have h := video_attached_to_displayed_and_stored
    { initState 0 with selectedRecipe := some (ricottaPancakes 0), view := .RECIPE_DETAIL }
    (ricottaPancakes 0) "blob:v1" rfl
  refine ⟨h.1, ?_, ?_⟩
  · rw [h.2.2.1 1]
    rfl
  · rw [h.2.2.1 0]
    rfl

theorem detailMark_eq_empty_iff (m : ℚ) : detailMark m = "" ↔ m = 1 := by
  rw [detailMark]
  by_cases h : m = 1
  · simp [h]
  · rw [if_neg h]
    constructor
    · intro he
      have hd := congrArg String.data he
      simp [String.data_append] at hd
    · intro hc
      exact absurd hc h

theorem reachableMult_half_integral {m : ℚ} (h : ReachableMult m) :
    ∃ k : ℕ, 1 ≤ k ∧ m = (k : ℚ) / 2 := by
  induction h with
  | base => exact ⟨2, by norm_num⟩
  | up _ ih =>
    obtain ⟨k, hk, rfl⟩ := ih
    exact ⟨k + 1, by omega, by push_cast; ring⟩
  | down _ ih =>
    obtain ⟨k, hk, rfl⟩ := ih
    rcases Nat.lt_or_ge k 2 with hk2 | hk2
    · interval_cases k
      refine ⟨1, le_refl 1, ?_⟩
      rw [show ((1:ℕ):ℚ)/2 - 1/2 = 0 by norm_num, max_eq_left (by norm_num)]
      norm_num
    · refine ⟨k - 1, by omega, ?_⟩
      have h1 : ((k:ℚ))/2 - 1/2 = ((k - 1 : ℕ) : ℚ)/2 := by
        push_cast [Nat.cast_sub (by omega : 1 ≤ k)]
        ring
      rw [h1, max_eq_right]
      have h2 : (1:ℚ) ≤ ((k - 1 : ℕ) : ℚ) := by
        exact_mod_cast (by omega : 1 ≤ k - 1)
      linarith

/-- C8: the serving-scale display is a pure function of the multiplier
and the ingredient — the displayed amount text is the stored one, the
displayed cost is `round(c*m, 2)`, the scale tag is shown iff m ≠ 1 —
every reachable multiplier is a positive multiple of 0.5 with floor
0.5, and the multiplier buttons never touch the stored recipes or the
displayed recipe record (no mutation of stored amount or cost). -/
theorem serving_scale_display_pure (m : ℚ) (hm : ReachableMult m)
    (ing : Ingredient) (s : AppState) :
    displayRow m ing = (ing.amount, detailMark m, roundTo2 (ing.estimatedCost * m)) ∧
    (detailMark m = "" ↔ m = 1) ∧
    (∃ k : ℕ, 1 ≤ k ∧ m = (k : ℚ) / 2) ∧
    ((1:ℚ)/2 ≤ m) ∧
    ((incMult s).recipes = s.recipes ∧ (decMult s).recipes = s.recipes) ∧
    ((incMult s).selectedRecipe = s.selectedRecipe ∧
      (decMult s).selectedRecipe = s.selectedRecipe) := by
  obtain ⟨k, hk, hkm⟩ := reachableMult_half_integral hm
  refine ⟨rfl, detailMark_eq_empty_iff m, ⟨k, hk, hkm⟩, ?_, ⟨rfl, rfl⟩, ⟨rfl, rfl⟩⟩
  rw [hkm]
  have h2 : (1:ℚ) ≤ (k : ℚ) := by exact_mod_cast hk
  linarith

/-- C8 witness: at the reachable multiplier 1.5 the Garlic row shows the
unchanged amount text, the tag "(x1.5)" and cost `round(0.5*1.5, 2) =
0.75`, and stepping the multiplier leaves the recipe collection as
seeded. -/
theorem serving_scale_display_pure_witness :
    displayRow (1 + 1/2 : ℚ) garlicIng = ("5 cloves", "(x1.5)", 0.75) ∧
    (incMult (initState 0)).recipes = INITIAL_RECIPES 0 := by
  have h := serving_scale_display_pure (1 + 1/2 : ℚ)
    (ReachableMult.up ReachableMult.base) garlicIng (initState 0)
  refine ⟨?_, h.2.2.2.2.1.1⟩
  rw [h.1]
  have hd : detailMark (1 + 1/2 : ℚ) = "(x1.5)" := by
    rw [detailMark, if_neg (by norm_num)]
    norm_num [jsHalfString]
    rfl
  have hc : roundTo2 (garlicIng.estimatedCost * (1 + 1/2 : ℚ)) = 0.75 := by
    norm_num [roundTo2, garlicIng]
  rw [hd, hc]
  rfl

theorem applyCook_keeps_selected (a : CookAction) (t : AppState) (r : Recipe)
    (hsel : t.selectedRecipe = some r) : (applyCook a t).selectedRecipe = some r := by
  cases a <;> rw [applyCook, hsel]

theorem cook_fold_inv (r : Recipe) (hlen : 1 ≤ (r.instructions.length : ℤ))
    (acts : List CookAction) :
    ∀ t : AppState, t.selectedRecipe = some r →
      0 ≤ t.currentStepIndex → t.currentStepIndex < (r.instructions.length : ℤ) →
      (acts.foldl (fun st a => applyCook a st) t).selectedRecipe = some r ∧
      0 ≤ (acts.foldl (fun st a => applyCook a st) t).currentStepIndex ∧
      (acts.foldl (fun st a => applyCook a st) t).currentStepIndex <
        (r.instructions.length : ℤ) := by
  induction acts with
  | nil => exact fun t hsel h0 h1 => ⟨hsel, h0, h1⟩
  | cons a as ih =>
    intro t hsel h0 h1
    have hsel' := applyCook_keeps_selected a t r hsel
    have hstep : 0 ≤ (applyCook a t).currentStepIndex ∧
        (applyCook a t).currentStepIndex < (r.instructions.length : ℤ) := by
      cases a <;> rw [applyCook, hsel] <;> constructor <;> simp <;> omega
    exact ih (applyCook a t) hsel' hstep.1 hstep.2

/-- C10: entering cooking mode puts the step index at 0 and the
previous/next actions clamp it to `[0, instructions.length - 1]`, so for
a selected recipe with a non-empty instruction list, after any sequence
of step actions the current index is a valid position in
`instructions` — reading the current step never goes out of bounds. -/
theorem cooking_index_in_bounds (s : AppState) (r : Recipe)
    (hsel : s.selectedRecipe = some r) (hne : r.instructions ≠ [])
    (acts : List CookAction) :
    0 ≤ (acts.foldl (fun st a => applyCook a st) (enterCookingMode s)).currentStepIndex ∧
    (acts.foldl (fun st a => applyCook a st) (enterCookingMode s)).currentStepIndex <
      (r.instructions.length : ℤ) ∧
    ((acts.foldl (fun st a => applyCook a st) (enterCookingMode s)).currentStepIndex).toNat <
      r.instructions.length := by
  have hlen : 1 ≤ (r.instructions.length : ℤ) := by
    have := List.length_pos.mpr hne
    omega
  have hinv := cook_fold_inv r hlen acts (enterCookingMode s) hsel
    (by simp [enterCookingMode]) (by simp only [enterCookingMode]; omega)
  exact ⟨hinv.2.1, hinv.2.2, by omega⟩

/-- C10 witness: from the seed gravy recipe, two next-steps and a
previous-step leave the index at 1, a valid position among the four
instructions. -/
theorem cooking_index_in_bounds_witness :
    (([CookAction.nextStep, CookAction.nextStep, CookAction.prevStep].foldl
      (fun st a => applyCook a st)
      (enterCookingMode { initState 0 with selectedRecipe := some (sundayGravy 0) })).currentStepIndex).toNat <
      (sundayGravy 0).instructions.length := by
  exact (cooking_index_in_bounds
    { initState 0 with selectedRecipe := some (sundayGravy 0) }
    (sundayGravy 0) rfl (by decide)
    [CookAction.nextStep, CookAction.nextStep, CookAction.prevStep]).2.2
